import Mathlib

/-!
# StudyHub backend — verification of the request-handling layer

Shallow embedding of the StudyHub Express backend (the third, authoritative
variant of `server.js`) and of `backend/middleware/auth.js`.  Route handlers
become pure Lean functions from (caller identity, route parameters, parsed
request body, store) to (HTTP status, store).  MongoDB collections become
association lists keyed by the record's `_id`; since `_id` is a unique key in
MongoDB, `findOne({_id, author})` is embedded as "find by id, then check the
author field".  JavaScript strings become Lean `String`s: `Buffer.byteLength(s,
'utf8')` is `String.utf8ByteSize`, and validator.js's `isLength` count (UTF-16
length minus surrogate pairs, i.e. the number of code points) is
`String.length`.
-/

namespace StudyHub

/-- HTTP status code of a response. -/
abbrev Status := Nat

/-- Number of code points of a JS string: what validator.js `isLength`
measures (`str.length - surrogatePairs.length`). -/
def jsLen (s : String) : Nat := s.length

/-- UTF-8 byte length of a JS string: what `Buffer.byteLength(s, 'utf8')`
measures. -/
def utf8Len (s : String) : Nat := s.utf8ByteSize

/-- JS truthiness of an optional string field (`undefined` and `""` are
falsy, every other string is truthy). -/
def strTruthy : Option String → Bool
  | none => false
  | some s => s ≠ ""

/-- JS `String.prototype.trim`: drop leading and trailing whitespace (the
whitespace class is embedded as `Char.isWhitespace`, which covers the ASCII
whitespace the application ever sees). -/
def jsTrim (s : String) : String :=
  String.mk (((s.data.dropWhile Char.isWhitespace).reverse.dropWhile Char.isWhitespace).reverse)

/-- Remainder of `l` after the pattern `p`, when `p` is a leading pattern of
`l`. -/
def stripPref : List Char → List Char → Option (List Char)
  | [], l => some l
  | _ :: _, [] => none
  | p :: ps, c :: cs => if c = p then stripPref ps cs else none

/-- Remove the first occurrence of the pattern from the character list. -/
def replaceFirstAux (pat : List Char) : List Char → List Char
  | [] => []
  | c :: cs =>
    match stripPref pat (c :: cs) with
    | some rest => rest
    | none => c :: replaceFirstAux pat cs

/-- JS `String.prototype.replace` with string arguments: replace the first
occurrence of `pat` in `s` with the empty string. -/
def replaceFirst (s pat : String) : String :=
  String.mk (replaceFirstAux pat.data s.data)

/-- A parsed JSON value as far as the handlers inspect it (`typeof` checks). -/
inductive JsValue where
  | undefined
  | nullv
  | boolean (b : Bool)
  | number (n : Int)
  | string (s : String)
  deriving Repr, DecidableEq

/-- The `typeof v === 'boolean'` check. -/
def JsValue.isBoolean : JsValue → Bool
  | .boolean _ => true
  | _ => false

/-! ## Notes -/

/-- A persisted Note document (`models/Note.js`): title, content, tags and
the owning user (`author`). -/
structure Note where
  title : String
  content : String
  tags : List String
  author : String
  deriving Repr, DecidableEq

/-- The Notes collection: association list keyed by `_id`. -/
abbrev NoteStore := List (String × Note)

/-- Lookup by `_id` (unique key): first entry with the given id. -/
def findNote : NoteStore → String → Option Note
  | [], _ => none
  | (k, v) :: rest, id => if k = id then some v else findNote rest id

/-- The handlers' `Note.findOne({_id: id, author: uid})`: with `_id` unique
this is a lookup by id followed by an author check. -/
def findOwnedNote (store : NoteStore) (id uid : String) : Option Note :=
  match findNote store id with
  | none => none
  | some n => if n.author = uid then some n else none

/-- Persist `note.save()` on an existing document: replace the entry with the
given `_id`. -/
def setNote : NoteStore → String → Note → NoteStore
  | [], _, _ => []
  | (k, v) :: rest, id, n => if k = id then (k, n) :: rest else (k, v) :: setNote rest id n

/-- Remove the entry with the given `_id` (`Note.findByIdAndDelete`). -/
def eraseNote : NoteStore → String → NoteStore
  | [], _ => []
  | (k, v) :: rest, id => if k = id then rest else (k, v) :: eraseNote rest id

/-- Parsed body of a note request.  A field is `none` when absent from the
JSON body; the express-validator chain guarantees a present field has the
embedded type (string / array of strings), which the claims never exercise
otherwise. -/
structure NoteBody where
  title : Option String
  content : Option String
  tags : Option (List String)
  deriving Repr, DecidableEq

/-- The `POST /api/notes` express-validator chain: `title` is required and
non-empty after trimming, `content` is a required string of at most 100000
code points; `tags` and its elements are optional and already well-typed in
the embedding. -/
def postNoteValid (b : NoteBody) : Bool :=
  (match b.title with
   | some t => jsTrim t ≠ ""
   | none => false)
  &&
  (match b.content with
   | some c => jsLen c ≤ 100000
   | none => false)

/-- The `POST /api/notes` handler: 400 on validation failure, 413 when the
content exceeds 100000 UTF-8 bytes, otherwise persist a new note owned by the
caller and answer 201.  `newId` is the fresh `_id` MongoDB assigns.  The
`trim()` sanitizer has rewritten `title` before the handler destructures it. -/
def postNote (uid newId : String) (b : NoteBody) (store : NoteStore) :
    Status × NoteStore :=
  if ¬ postNoteValid b then (400, store)
  else
    let title := jsTrim (b.title.getD "")
    let content := b.content.getD ""
    if utf8Len content > 100000 then (413, store)
    else (201, (newId, ⟨title, content, b.tags.getD [], uid⟩) :: store)

/-- The `PUT /api/notes/:id` express-validator chain: every field optional;
`title`, when present, non-empty after trimming; `content`, when present, a
string of at most 100000 code points. -/
def putNoteValid (b : NoteBody) : Bool :=
  (match b.title with
   | some t => jsTrim t ≠ ""
   | none => true)
  &&
  (match b.content with
   | some c => jsLen c ≤ 100000
   | none => true)

/-- The `PUT /api/notes/:id` handler: 400 on validation failure, then an
owner-scoped lookup (404 when absent or not owned), then a 413 byte-size
check on a truthy `content`, then each truthy field is copied onto the
document and the document saved (200). -/
def putNote (uid id : String) (b : NoteBody) (store : NoteStore) :
    Status × NoteStore :=
  if ¬ putNoteValid b then (400, store)
  else
    match findOwnedNote store id uid with
    | none => (404, store)
    | some note =>
      let titleT := b.title.map jsTrim
      if strTruthy b.content ∧ utf8Len (b.content.getD "") > 100000 then (413, store)
      else
        let n1 := if strTruthy titleT then { note with title := titleT.getD "" } else note
        let n2 := if strTruthy b.content then { n1 with content := b.content.getD "" } else n1
        let n3 := match b.tags with
          | some ts => { n2 with tags := ts }
          | none => n2
        (200, setNote store id n3)

/-- The `DELETE /api/notes/:id` handler: owner-scoped lookup, 404 when absent
or not owned, otherwise delete by id and answer 200. -/
def deleteNote (uid id : String) (store : NoteStore) : Status × NoteStore :=
  match findOwnedNote store id uid with
  | none => (404, store)
  | some _ => (200, eraseNote store id)

/-! ## Doubts -/

/-- An Answer sub-record of a Doubt. -/
structure Answer where
  text : String
  author : String
  deriving Repr, DecidableEq

/-- A persisted Doubt document (`models/Doubt.js`): question, description,
tags, owning user, resolved flag and answers.  The model file is not part of
the shown source; the fields are those the shown handlers and the spec's data
model use, with `isResolved` defaulting to false at creation. -/
structure Doubt where
  question : String
  description : String
  tags : List String
  author : String
  isResolved : Bool
  answers : List Answer
  deriving Repr, DecidableEq

/-- The Doubts collection: association list keyed by `_id`. -/
abbrev DoubtStore := List (String × Doubt)

/-- Lookup by `_id` (`Doubt.findById`). -/
def findDoubt : DoubtStore → String → Option Doubt
  | [], _ => none
  | (k, v) :: rest, id => if k = id then some v else findDoubt rest id

/-- Persist `doubt.save()` on an existing document: replace the entry with
the given `_id`. -/
def setDoubt : DoubtStore → String → Doubt → DoubtStore
  | [], _, _ => []
  | (k, v) :: rest, id, d => if k = id then (k, d) :: rest else (k, v) :: setDoubt rest id d

/-- The `POST /api/doubts` handler: no validation and no size check — it
builds a Doubt from the body (tags defaulting to the empty list), stamps the
caller as author, persists it and answers 201. -/
def postDoubt (uid newId : String) (question description : String)
    (tags : Option (List String)) (store : DoubtStore) : Status × DoubtStore :=
  (201, (newId, ⟨question, description, tags.getD [], uid, false, []⟩) :: store)

/-- The `PUT /api/doubts/:id/resolve` handler: 404 when the doubt is absent;
403 when the caller is not the author (checked before the body is looked at);
400 when `isResolved` in the body is not a boolean; otherwise the flag is
stored and the handler answers 200. -/
def resolveDoubt (uid id : String) (isResolved : JsValue) (store : DoubtStore) :
    Status × DoubtStore :=
  match findDoubt store id with
  | none => (404, store)
  | some doubt =>
    if uid ≠ doubt.author then (403, store)
    else
      match isResolved with
      | .boolean b => (200, setDoubt store id { doubt with isResolved := b })
      | _ => (400, store)

/-! ## Timetable -/

/-- One weekday entry of a timetable: named day and its slot list.  The slot
shape is unspecified by the shown code; slots are embedded opaquely as
strings, which the handlers never inspect. -/
structure DayEntry where
  day : String
  slots : List String
  deriving Repr, DecidableEq

/-- A persisted Timetable document: the owning user and the schedule. -/
structure Timetable where
  author : String
  schedule : List DayEntry
  deriving Repr, DecidableEq

/-- The Timetable collection: association list keyed by `_id`. -/
abbrev TimetableStore := List (String × Timetable)

/-- The handlers' `Timetable.findOne({author: uid})`: first timetable owned
by the caller. -/
def findTimetableByAuthor : TimetableStore → String → Option Timetable
  | [], _ => none
  | (_, v) :: rest, uid => if v.author = uid then some v else findTimetableByAuthor rest uid

/-- The default schedule a missing timetable is synthesized with: Monday
through Sunday, each with an empty slot list. -/
def defaultSchedule : List DayEntry :=
  [⟨"Monday", []⟩, ⟨"Tuesday", []⟩, ⟨"Wednesday", []⟩, ⟨"Thursday", []⟩,
   ⟨"Friday", []⟩, ⟨"Saturday", []⟩, ⟨"Sunday", []⟩]

/-- The `GET /api/timetable` handler: return the caller's timetable, creating
and persisting one with the default schedule when absent.  The returned
timetable is the middle component. -/
def getTimetable (uid newId : String) (store : TimetableStore) :
    Status × Timetable × TimetableStore :=
  match findTimetableByAuthor store uid with
  | some t => (200, t, store)
  | none =>
    let t : Timetable := ⟨uid, defaultSchedule⟩
    (200, t, (newId, t) :: store)

/-! ## Authentication middleware (`backend/middleware/auth.js`) -/

/-- The identity the middleware attaches to the request (`req.user`); only
the identifier is relevant downstream. -/
structure AuthUser where
  id : String
  deriving Repr, DecidableEq

/-- Outcome of `jwt.verify(token, secret)`: a decoded payload whose `id`
field may be absent, or a thrown error (expired, malformed, or bad
signature). -/
inductive VerifyOutcome where
  | valid (id : Option String)
  | invalid
  deriving Repr, DecidableEq

/-- Outcome of the best-effort `User.findById(decoded.id)`: a user record,
no record, or a database error (which the middleware swallows). -/
inductive LookupOutcome where
  | found (u : AuthUser)
  | notFound
  | dbError
  deriving Repr, DecidableEq

/-- Result of the middleware: a rejection with a status (the handler is not
reached), or `next()` with `req.user` attached. -/
inductive AuthResult where
  | reject (status : Status)
  | proceed (user : AuthUser)
  deriving Repr, DecidableEq

/-- The `auth` middleware.  `disableAuth` is the `DISABLE_AUTH` bypass flag,
`authHeader` the raw `Authorization` header, `secret` the configured
`JWT_SECRET`; `verify` and `lookup` are the outcomes of the token
verification and the user lookup the middleware would perform. -/
def auth (disableAuth : Bool) (authHeader : Option String) (secret : Option String)
    (verify : VerifyOutcome) (lookup : LookupOutcome) : AuthResult :=
  if disableAuth then .proceed ⟨"dev-user"⟩
  else
    let token := authHeader.map (fun h => replaceFirst h "Bearer ")
    if ¬ strTruthy token then .reject 401
    else
      match secret with
      | none => .reject 500
      | some _ =>
        match verify with
        | .invalid => .reject 401
        | .valid idField =>
          if ¬ strTruthy idField then .reject 401
          else
            match lookup with
            | .found u => .proceed u
            | .notFound => .proceed ⟨idField.getD ""⟩
            | .dbError => .proceed ⟨idField.getD ""⟩

/-! ## Concrete example data used by witnesses and counterexamples -/

/-- The all-ASCII string of `n` letters `a`: `n` code points, `n` UTF-8
bytes. -/
def aStr (n : Nat) : String := String.mk (List.replicate n 'a')

/-- A string of 100000 code points whose UTF-8 encoding takes 100001 bytes
(one two-byte character followed by 99999 ASCII characters). -/
def mixedStr : String := String.mk ('é' :: List.replicate 99999 'a')

/-- A doubt authored by user `alice`, not yet resolved. -/
def exDoubtAlice : Doubt := ⟨"q", "desc", [], "alice", false, []⟩

/-- A note owned by user `alice` with one tag. -/
def exNoteAlice : Note := ⟨"T", "hello", ["t1"], "alice"⟩

/-! ## Helper lemmas -/

theorem jsLen_mk (l : List Char) : jsLen (String.mk l) = l.length := rfl

theorem jsLen_aStr (n : Nat) : jsLen (aStr n) = n := by
  simp [jsLen_mk, aStr]

theorem utf8Len_mk_cons (c : Char) (l : List Char) :
    utf8Len (String.mk (c :: l)) = utf8Len (String.mk l) + c.utf8Size := rfl

theorem utf8Len_aStr (n : Nat) : utf8Len (aStr n) = n := by
  induction n with
  | zero => rfl
  | succ k ih =>
    have h : aStr (k + 1) = String.mk ('a' :: List.replicate k 'a') := by
      simp [aStr, List.replicate]
    have ha : ('a' : Char).utf8Size = 1 := rfl
    have hk : utf8Len (String.mk (List.replicate k 'a')) = k := ih
    rw [h, utf8Len_mk_cons]
    omega

theorem utf8Len_mixed : utf8Len mixedStr = 100001 := by
  show utf8Len (String.mk ('é' :: List.replicate 99999 'a')) = 100001
  rw [utf8Len_mk_cons]
  have h1 : ('é' : Char).utf8Size = 2 := rfl
  have h2 : utf8Len (String.mk (List.replicate 99999 'a')) = 99999 := utf8Len_aStr 99999
  omega

theorem jsLen_mixed : jsLen mixedStr = 100000 := by
  show jsLen (String.mk ('é' :: List.replicate 99999 'a')) = 100000
  rw [jsLen_mk, List.length_cons, List.length_replicate]

theorem go_ge_len (l : List Char) : l.length ≤ String.utf8ByteSize.go l := by
  induction l with
  | nil => simp [String.utf8ByteSize.go]
  | cons c cs ih =>
    have := Char.utf8Size_pos c
    simp only [List.length_cons, String.utf8ByteSize.go]
    omega

/-- A JS string never has more code points than UTF-8 bytes, so a body that
passes the byte-size check with exactly 100000 bytes also passes the
validator's code-point limit. -/
theorem jsLen_le_utf8Len (s : String) : jsLen s ≤ utf8Len s := by
  cases s with
  | mk l => exact go_ge_len l

theorem findDoubt_setDoubt (store : DoubtStore) (id : String) (d d' : Doubt)
    (h : findDoubt store id = some d) : findDoubt (setDoubt store id d') id = some d' := by
  induction store with
  | nil => simp [findDoubt] at h
  | cons kv rest ih =>
    obtain ⟨k, v⟩ := kv
    by_cases hk : k = id
    · subst hk; simp [setDoubt, findDoubt]
    · simp [setDoubt, findDoubt, hk] at h ⊢
      exact ih h

theorem setDoubt_setDoubt (store : DoubtStore) (id : String) (d : Doubt) :
    setDoubt (setDoubt store id d) id d = setDoubt store id d := by
  induction store with
  | nil => rfl
  | cons kv rest ih =>
    obtain ⟨k, v⟩ := kv
    by_cases hk : k = id
    · subst hk; simp [setDoubt]
    · simp [setDoubt, hk, ih]

/-- Saving a document back unchanged leaves the collection unchanged. -/
theorem setNote_self (store : NoteStore) (id : String) (n : Note)
    (h : findNote store id = some n) : setNote store id n = store := by
  induction store with
  | nil => rfl
  | cons kv rest ih =>
    obtain ⟨k, v⟩ := kv
    by_cases hk : k = id
    · subst hk
      simp [findNote] at h
      simp [setNote, h]
    · simp [findNote, hk] at h
      simp [setNote, hk, ih h]

/-! ## Claims -/

/-- C1: for every resolve request on an existing doubt whose author differs
from the caller, the handler answers 403 and the store — in particular the
doubt's `isResolved` flag — is unchanged. -/
theorem C1_resolve_nonauthor_403 (uid id : String) (body : JsValue) (store : DoubtStore)
    (d : Doubt) (hfind : findDoubt store id = some d) (hne : uid ≠ d.author) :
    resolveDoubt uid id body store = (403, store) := by
  simp [resolveDoubt, hfind, hne]

/-- C1 witness: `bob` asking to resolve `alice`'s doubt gets 403 and the
store is untouched. -/
theorem C1_resolve_nonauthor_403_witness :
    findDoubt [("d1", exDoubtAlice)] "d1" = some exDoubtAlice ∧
    resolveDoubt "bob" "d1" (.boolean true) [("d1", exDoubtAlice)] =
      (403, [("d1", exDoubtAlice)]) :=
  ⟨rfl, C1_resolve_nonauthor_403 "bob" "d1" (.boolean true) [("d1", exDoubtAlice)]
    exDoubtAlice rfl (by decide)⟩

/-- C2 counterexample: an all-ASCII content of 100001 UTF-8 bytes fails the
validator's 100000 code-point limit and is answered 400, not the 413 the
claim states. -/
theorem C2_note_size_counterexample :
    utf8Len (aStr 100001) = 100001 ∧
    postNote "u1" "n1" ⟨some "T", some (aStr 100001), none⟩ [] = (400, []) := by
  have hv : postNoteValid ⟨some "T", some (aStr 100001), none⟩ = false := by
    simp [postNoteValid, jsLen_aStr]
  exact ⟨utf8Len_aStr 100001, by simp [postNote, hv]⟩

/-- C2 amended: with a title that is non-empty after trimming, a content of
exactly 100000 UTF-8 bytes is accepted (201, note persisted); a content of
100001 UTF-8 bytes is rejected with 400 when its code-point count also
exceeds 100000 (the validator limit is checked first) and with 413 when its
code-point count is at most 100000. -/
theorem C2_note_size_boundary (uid newId t c : String) (tags : Option (List String))
    (store : NoteStore) (ht : jsTrim t ≠ "") :
    (utf8Len c = 100000 →
      postNote uid newId ⟨some t, some c, tags⟩ store =
        (201, (newId, ⟨jsTrim t, c, tags.getD [], uid⟩) :: store)) ∧
    (utf8Len c = 100001 → 100000 < jsLen c →
      postNote uid newId ⟨some t, some c, tags⟩ store = (400, store)) ∧
    (utf8Len c = 100001 → jsLen c ≤ 100000 →
      postNote uid newId ⟨some t, some c, tags⟩ store = (413, store)) := by
  refine ⟨?_, ?_, ?_⟩
  · intro hc
    have hle : jsLen c ≤ 100000 := by have := jsLen_le_utf8Len c; omega
    have hv : postNoteValid ⟨some t, some c, tags⟩ = true := by
      simp [postNoteValid, ht, hle]
    simp [postNote, hv, hc]
  · intro hc hlen
    have hv : postNoteValid ⟨some t, some c, tags⟩ = false := by
      simp [postNoteValid]
      omega
    simp [postNote, hv]
  · intro hc hlen
    have hv : postNoteValid ⟨some t, some c, tags⟩ = true := by
      simp [postNoteValid, ht, hlen]
    simp [postNote, hv, hc]

/-- C2 witness: 100000 ASCII bytes are persisted with 201; 100001 ASCII
bytes get 400; a 100001-byte body of 100000 code points gets 413. -/
theorem C2_note_size_boundary_witness :
    postNote "u1" "n1" ⟨some "T", some (aStr 100000), none⟩ [] =
      (201, [("n1", ⟨jsTrim "T", aStr 100000, [], "u1"⟩)]) ∧
    postNote "u1" "n1" ⟨some "T", some (aStr 100001), none⟩ [] = (400, []) ∧
    postNote "u1" "n1" ⟨some "T", some mixedStr, none⟩ [] = (413, []) := by
  have hT : jsTrim "T" ≠ "" := by decide
  refine ⟨(C2_note_size_boundary "u1" "n1" "T" (aStr 100000) none [] hT).1 (utf8Len_aStr 100000),
          (C2_note_size_boundary "u1" "n1" "T" (aStr 100001) none [] hT).2.1
            (utf8Len_aStr 100001) ?_,
          (C2_note_size_boundary "u1" "n1" "T" mixedStr none [] hT).2.2
            utf8Len_mixed ?_⟩
  · rw [jsLen_aStr]; omega
  · rw [jsLen_mixed]

/-- C3 counterexample: a doubt whose description is 100001 UTF-8 bytes is
persisted and answered 201, not the 413 the claim states. -/
theorem C3_doubt_size_counterexample :
    utf8Len (aStr 100001) = 100001 ∧
    (postDoubt "u1" "d9" "Q" (aStr 100001) none []).1 = 201 ∧
    findDoubt (postDoubt "u1" "d9" "Q" (aStr 100001) none []).2 "d9" =
      some ⟨"Q", aStr 100001, [], "u1", false, []⟩ :=
  ⟨utf8Len_aStr 100001, rfl, rfl⟩

/-- C3 amended: the doubt-creation handler applies no size check at all —
every parsed doubt body, of any content size, is persisted with the caller
as author and answered 201. -/
theorem C3_doubt_no_size_check (uid newId q desc : String) (tags : Option (List String))
    (store : DoubtStore) :
    (postDoubt uid newId q desc tags store).1 = 201 ∧
    findDoubt (postDoubt uid newId q desc tags store).2 newId =
      some ⟨q, desc, tags.getD [], uid, false, []⟩ := by
  simp [postDoubt, findDoubt]

/-- C4 counterexample: a PUT whose body fails field validation (a title that
trims to empty) on an existing note owned by another user is answered 400,
not the 404 the claim states; the store is unchanged. -/
theorem C4_notes_cross_owner_counterexample :
    findNote [("n1", exNoteAlice)] "n1" = some exNoteAlice ∧
    exNoteAlice.author = "alice" ∧
    putNote "bob" "n1" ⟨some " ", none, none⟩ [("n1", exNoteAlice)] =
      (400, [("n1", exNoteAlice)]) :=
  ⟨rfl, rfl, rfl⟩

/-- C4 amended: for an existing note owned by someone else, DELETE — and PUT
provided its body passes field validation — answers 404 with the store
unchanged, the same outcome as when the note does not exist at all. -/
theorem C4_notes_cross_owner_404 (uid id : String) (b : NoteBody) (store store2 : NoteStore)
    (n : Note) (hfind : findNote store id = some n) (hown : n.author ≠ uid)
    (hvalid : putNoteValid b = true) (habs : findNote store2 id = none) :
    putNote uid id b store = (404, store) ∧
    deleteNote uid id store = (404, store) ∧
    putNote uid id b store2 = (404, store2) ∧
    deleteNote uid id store2 = (404, store2) := by
  have hlook : findOwnedNote store id uid = none := by
    simp [findOwnedNote, hfind, hown]
  have hlook2 : findOwnedNote store2 id uid = none := by
    simp [findOwnedNote, habs]
  exact ⟨by simp [putNote, hvalid, hlook], by simp [deleteNote, hlook],
         by simp [putNote, hvalid, hlook2], by simp [deleteNote, hlook2]⟩

/-- C4 witness: `bob` updating or deleting `alice`'s note with a valid body
gets 404 with the store unchanged, exactly as against an empty store. -/
theorem C4_notes_cross_owner_404_witness :
    putNote "bob" "n1" ⟨none, none, none⟩ [("n1", exNoteAlice)] =
      (404, [("n1", exNoteAlice)]) ∧
    deleteNote "bob" "n1" [("n1", exNoteAlice)] = (404, [("n1", exNoteAlice)]) ∧
    putNote "bob" "n1" ⟨none, none, none⟩ [] = (404, []) ∧
    deleteNote "bob" "n1" [] = (404, []) :=
  C4_notes_cross_owner_404 "bob" "n1" ⟨none, none, none⟩ [("n1", exNoteAlice)] []
    exNoteAlice rfl (by decide) rfl rfl

/-- C5: with the bypass flag disabled and no bearer credential (header
absent, or present and empty), the middleware answers 401 — whatever the
secret, verification and lookup would have been — and `next()` is never
called, so no handler runs. -/
theorem C5_missing_token_401 (secret : Option String) (verify : VerifyOutcome)
    (lookup : LookupOutcome) :
    auth false none secret verify lookup = .reject 401 ∧
    auth false (some "") secret verify lookup = .reject 401 ∧
    (∀ u : AuthUser, (auth false none secret verify lookup == AuthResult.proceed u) = false) ∧
    (∀ u : AuthUser, (auth false (some "") secret verify lookup == AuthResult.proceed u) = false) :=
  ⟨rfl, rfl, fun _ => rfl, fun _ => rfl⟩

/-- C6 counterexample: with the signing secret unconfigured, a request
presenting a malformed credential is answered 500, not the 401 the claim
states. -/
theorem C6_misconfigured_secret_counterexample :
    auth false (some "Bearer not-a-jwt") none .invalid .notFound = .reject 500 := rfl

/-- C6 amended: provided the signing secret is configured, every request
whose credential fails verification (expired, malformed or badly signed) is
answered 401 — never 500 — whatever the header and the user lookup. -/
theorem C6_invalid_token_401 (header secret : String) (verify : VerifyOutcome)
    (lookup : LookupOutcome) (hv : verify = .invalid) :
    auth false (some header) (some secret) verify lookup = .reject 401 := by
  subst hv
  by_cases h : strTruthy (some (replaceFirst header "Bearer "))
  · simp [auth, h]
  · simp [auth, h]

/-- C6 witness: an expired or garbage bearer token on a configured server is
answered 401. -/
theorem C6_invalid_token_401_witness :
    auth false (some "Bearer expired.or.garbage") (some "secret") .invalid .notFound =
      .reject 401 :=
  C6_invalid_token_401 "Bearer expired.or.garbage" "secret" .invalid .notFound rfl

/-- C7: the author resolving a doubt with the same boolean twice succeeds
(200) both times, and the store after the second request is the store after
the first. -/
theorem C7_resolve_idempotent (uid id : String) (b : Bool) (store : DoubtStore) (d : Doubt)
    (hfind : findDoubt store id = some d) (hauth : uid = d.author) :
    (resolveDoubt uid id (.boolean b) store).1 = 200 ∧
    resolveDoubt uid id (.boolean b) (resolveDoubt uid id (.boolean b) store).2 =
      (200, (resolveDoubt uid id (.boolean b) store).2) := by
  have h1 : resolveDoubt uid id (.boolean b) store =
      (200, setDoubt store id { d with isResolved := b }) := by
    simp [resolveDoubt, hfind, hauth]
  have hfind2 : findDoubt (setDoubt store id { d with isResolved := b }) id =
      some { d with isResolved := b } := findDoubt_setDoubt store id d _ hfind
  constructor
  · rw [h1]
  · rw [h1]
    simp only [resolveDoubt, hfind2]
    have hne : uid ≠ ({ d with isResolved := b } : Doubt).author ↔ False := by
      simp [hauth]
    simp only [hne, if_false]
    simp [setDoubt_setDoubt]

/-- C7 witness: `alice` resolving her doubt twice with `true` gets 200 both
times and the second request leaves the store of the first untouched. -/
theorem C7_resolve_idempotent_witness :
    (resolveDoubt "alice" "d1" (.boolean true) [("d1", exDoubtAlice)]).1 = 200 ∧
    resolveDoubt "alice" "d1" (.boolean true)
        (resolveDoubt "alice" "d1" (.boolean true) [("d1", exDoubtAlice)]).2 =
      (200, (resolveDoubt "alice" "d1" (.boolean true) [("d1", exDoubtAlice)]).2) :=
  C7_resolve_idempotent "alice" "d1" true [("d1", exDoubtAlice)] exDoubtAlice rfl rfl

/-- C8: a caller with no timetable gets 200 and a freshly created timetable
they own, whose schedule is exactly Monday through Sunday each with an empty
slot list, and the created record is persisted (found by a subsequent
owner lookup). -/
theorem C8_timetable_get_or_create (uid newId : String) (store : TimetableStore)
    (habs : findTimetableByAuthor store uid = none) :
    (getTimetable uid newId store).1 = 200 ∧
    (getTimetable uid newId store).2.1.author = uid ∧
    (getTimetable uid newId store).2.1.schedule =
      [⟨"Monday", []⟩, ⟨"Tuesday", []⟩, ⟨"Wednesday", []⟩, ⟨"Thursday", []⟩,
       ⟨"Friday", []⟩, ⟨"Saturday", []⟩, ⟨"Sunday", []⟩] ∧
    findTimetableByAuthor (getTimetable uid newId store).2.2 uid =
      some (getTimetable uid newId store).2.1 := by
  simp [getTimetable, habs, findTimetableByAuthor, defaultSchedule]

/-- C8 witness: the first timetable read of user `u1` against an empty store
creates, persists and returns the default seven-day timetable. -/
theorem C8_timetable_get_or_create_witness :
    (getTimetable "u1" "t1" []).1 = 200 ∧
    (getTimetable "u1" "t1" []).2.1.author = "u1" ∧
    (getTimetable "u1" "t1" []).2.1.schedule =
      [⟨"Monday", []⟩, ⟨"Tuesday", []⟩, ⟨"Wednesday", []⟩, ⟨"Thursday", []⟩,
       ⟨"Friday", []⟩, ⟨"Saturday", []⟩, ⟨"Sunday", []⟩] ∧
    findTimetableByAuthor (getTimetable "u1" "t1" []).2.2 "u1" =
      some (getTimetable "u1" "t1" []).2.1 :=
  C8_timetable_get_or_create "u1" "t1" [] rfl

/-- C9: for an owner update that passes validation, a body with no fields
leaves the stored note unchanged, a content field supplied as the empty
string (falsy) also leaves it unchanged, and a tags field supplied as the
empty array (truthy) does replace the stored tags while title and content
are retained. -/
theorem C9_put_note_frame (uid id : String) (store : NoteStore) (n : Note)
    (hfind : findNote store id = some n) (hown : n.author = uid) :
    putNote uid id ⟨none, none, none⟩ store = (200, store) ∧
    putNote uid id ⟨none, some "", none⟩ store = (200, store) ∧
    putNote uid id ⟨none, none, some []⟩ store =
      (200, setNote store id { n with tags := [] }) := by
  have hlook : findOwnedNote store id uid = some n := by
    simp [findOwnedNote, hfind, hown]
  refine ⟨?_, ?_, ?_⟩
  · simp [putNote, putNoteValid, hlook, strTruthy, setNote_self store id n hfind]
  · simp [putNote, putNoteValid, hlook, strTruthy, jsLen, setNote_self store id n hfind]
  · simp [putNote, putNoteValid, hlook, strTruthy]

/-- C9 witness: `alice` updating her note with an empty body or an
empty-string content leaves it as stored; supplying `tags: []` empties the
tags and keeps title and content. -/
theorem C9_put_note_frame_witness :
    putNote "alice" "n1" ⟨none, none, none⟩ [("n1", exNoteAlice)] =
      (200, [("n1", exNoteAlice)]) ∧
    putNote "alice" "n1" ⟨none, some "", none⟩ [("n1", exNoteAlice)] =
      (200, [("n1", exNoteAlice)]) ∧
    putNote "alice" "n1" ⟨none, none, some []⟩ [("n1", exNoteAlice)] =
      (200, [("n1", ⟨"T", "hello", [], "alice"⟩)]) :=
  C9_put_note_frame "alice" "n1" [("n1", exNoteAlice)] exNoteAlice rfl rfl

/-- C10: on an existing doubt the ownership check runs before body
validation — a non-author gets 403 whatever the body, and the author with a
non-boolean `isResolved` gets 400 — the store unchanged in both cases. -/
theorem C10_resolve_check_order (uid id : String) (body : JsValue) (store : DoubtStore)
    (d : Doubt) (hfind : findDoubt store id = some d) :
    (uid ≠ d.author → resolveDoubt uid id body store = (403, store)) ∧
    (uid = d.author → body.isBoolean = false → resolveDoubt uid id body store = (400, store)) := by
  constructor
  · intro hne; simp [resolveDoubt, hfind, hne]
  · intro heq hb
    cases body <;> simp_all [resolveDoubt, hfind, JsValue.isBoolean]

/-- C10 witness: with `isResolved` supplied as the number 1, `bob` gets 403
on `alice`'s doubt and `alice` herself gets 400; the store never changes. -/
theorem C10_resolve_check_order_witness :
    resolveDoubt "bob" "d1" (.number 1) [("d1", exDoubtAlice)] =
      (403, [("d1", exDoubtAlice)]) ∧
    resolveDoubt "alice" "d1" (.number 1) [("d1", exDoubtAlice)] =
      (400, [("d1", exDoubtAlice)]) :=
  ⟨(C10_resolve_check_order "bob" "d1" (.number 1) [("d1", exDoubtAlice)]
      exDoubtAlice rfl).1 (by decide),
   (C10_resolve_check_order "alice" "d1" (.number 1) [("d1", exDoubtAlice)]
      exDoubtAlice rfl).2 rfl rfl⟩

end StudyHub
